import Mathlib

/-!
Verification development for the audio-client core of this repository
(`src/libraries/audio-client/src/AudioClient.cpp`).

The C++ code is shallowly embedded: pure helper functions become Lean
functions over `ℤ` / `ℕ` / `ℚ` (machine `int16_t` arithmetic is made
explicit with a wrap-to-16-bit function; C `float` arithmetic is
idealised as exact rational arithmetic, with the final cast to `int`
modelled as truncation toward zero), and the stateful notification
handlers become explicit state-passing step functions.  External
collaborators (Qt audio devices, the soxr engine, the inbound audio
stream) are abstracted as parameters, exactly at the boundaries the
code calls them.
-/

namespace AudioClientModel

/-- Relevant fields of Qt's `QAudioFormat` as used by `AudioClient.cpp`:
only `sampleRate()` and `channelCount()` are ever branched on in this
file (sample size, codec, sample type and byte order are set once to
16-bit little-endian signed PCM and never varied), so format equality
is equality of these two fields. -/
structure QAudioFormat where
  sampleRate : ℕ
  channelCount : ℕ
deriving DecidableEq, Repr

/-- Modelled from the spec: `AudioConstants::SAMPLE_RATE` lives in
`AudioConstants.h`, which is not under `src/`.  The code comment at the
sample-rate fallback ("use 48, which is a sample downsample, upsample"
for `SAMPLE_RATE * 2`) fixes it at 24000. -/
def SAMPLE_RATE : ℕ := 24000

/-- Wrap an integer to the value the C++ store into an `int16_t` produces
(two's-complement wraparound). -/
def toInt16 (x : ℤ) : ℤ := (x + 32768) % 65536 - 32768

/-- Stereo-to-mono half of `sampleChannelConversion` (AudioClient.cpp
lines 355-361): every pair of source samples is averaged as
`(sourceSamples[i] / 2) + (sourceSamples[i + 1] / 2)` with C `int`
division (truncation toward zero, `Int.tdiv`), and the result is stored
into an `int16_t` destination slot. -/
def stereoToMonoSamples : List ℤ → List ℤ
  | a :: b :: rest => toInt16 (a.tdiv 2 + b.tdiv 2) :: stereoToMonoSamples rest
  | _ => []

/-- Mono-to-stereo half of `sampleChannelConversion` (lines 362-369):
each sample is duplicated into both channels. -/
def monoToStereoSamples : List ℤ → List ℤ
  | a :: rest => a :: a :: monoToStereoSamples rest
  | [] => []

/-- Embedding of `sampleChannelConversion` (lines 353-373).  Returns
`none` for the "no conversion" case in which the C++ function returns
`false` and the caller copies the samples directly. -/
def sampleChannelConversion (sourceAudioFormat destinationAudioFormat : QAudioFormat)
    (sourceSamples : List ℤ) : Option (List ℤ) :=
  if sourceAudioFormat.channelCount = 2 ∧ destinationAudioFormat.channelCount = 1 then
    some (stereoToMonoSamples sourceSamples)
  else if sourceAudioFormat.channelCount = 1 ∧ destinationAudioFormat.channelCount = 2 then
    some (monoToStereoSamples sourceSamples)
  else
    none

/-- C cast `(int)` applied to a nonnegative-or-negative rational: C
truncates toward zero; on `ℚ` this is `num.tdiv den`. -/
def ratTruncToInt (x : ℚ) : ℤ := x.num.tdiv x.den

/-- Embedding of `numDestinationSamplesRequired` (lines 186-192).  The
C++ computes `ratio = dstChannels/srcChannels; ratio *= dstRate/srcRate;
return (numSourceSamples * ratio) + 0.5f;` in `float` and implicitly
casts the result to `int`; the `float` arithmetic is idealised as exact
rational arithmetic and the cast as truncation toward zero. -/
def numDestinationSamplesRequired (sourceFormat destinationFormat : QAudioFormat)
    (numSourceSamples : ℕ) : ℤ :=
  let ratio : ℚ := (destinationFormat.channelCount : ℚ) / (sourceFormat.channelCount : ℚ)
  let ratio2 : ℚ := ratio * ((destinationFormat.sampleRate : ℚ) / (sourceFormat.sampleRate : ℚ))
  ratTruncToInt ((numSourceSamples : ℚ) * ratio2 + 1 / 2)

/-- Embedding of the destination-sample-count computation of
`AudioClient::processReceivedSamples` (lines 868-870):
`numNetworkOutputSamples * (outRate * outChannels) / (desiredRate *
desiredChannels)` in C `int` arithmetic, i.e. truncating division of
nonnegative integers. -/
def processReceivedSamplesCount (desiredOutputFormat outputFormat : QAudioFormat)
    (numNetworkOutputSamples : ℕ) : ℕ :=
  numNetworkOutputSamples * (outputFormat.sampleRate * outputFormat.channelCount) /
    (desiredOutputFormat.sampleRate * desiredOutputFormat.channelCount)

/-- Modelled from the spec: "Destination sample count is computed as
`round(sourceSampleCount * (dstRate/srcRate) * (dstChannels/srcChannels))`".
Mathlib's `round` rounds half up, matching the C idiom `(int)(x + 0.5f)`
for nonnegative `x`. -/
def specRoundedDestinationCount (sourceFormat destinationFormat : QAudioFormat)
    (numSourceSamples : ℕ) : ℤ :=
  round ((numSourceSamples : ℚ)
    * ((destinationFormat.sampleRate : ℚ) / (sourceFormat.sampleRate : ℚ))
    * ((destinationFormat.channelCount : ℚ) / (sourceFormat.channelCount : ℚ)))

/-- Abstraction of the `QAudioDeviceInfo` queries `adjustedFormatForAudioDevice`
makes: `isFormatSupported`, `supportedSampleRates().contains`, and
`nearestFormat`. -/
structure AudioDeviceInfo where
  isFormatSupported : QAudioFormat → Bool
  supportedSampleRates : List ℕ
  nearestFormat : QAudioFormat → QAudioFormat

/-- Embedding of `adjustedFormatForAudioDevice` (lines 300-351), on the
non-Android desktop path.  Returns the C++ `bool` result paired with the
out-parameter `adjustedAudioFormat`.  If the desired format is supported
it is chosen directly; otherwise a mono desired format is retried as
stereo; otherwise the sample rate is adjusted by the preference order
48000 (`SAMPLE_RATE * 2`), 22050, 44100, and if that changed the format
the device's nearest format to it is chosen; if nothing changed, the
function reports failure with the out-parameter left at the desired
format. -/
def adjustedFormatForAudioDevice (audioDevice : AudioDeviceInfo)
    (desiredAudioFormat : QAudioFormat) : Bool × QAudioFormat :=
  if audioDevice.isFormatSupported desiredAudioFormat then
    (true, desiredAudioFormat)
  else
    let stereoAttempt : QAudioFormat := { desiredAudioFormat with channelCount := 2 }
    if desiredAudioFormat.channelCount = 1 ∧ audioDevice.isFormatSupported stereoAttempt then
      (true, stereoAttempt)
    else
      let adjusted : QAudioFormat :=
        if audioDevice.supportedSampleRates.contains (SAMPLE_RATE * 2) then
          { desiredAudioFormat with sampleRate := SAMPLE_RATE * 2 }
        else if audioDevice.supportedSampleRates.contains 22050 then
          { desiredAudioFormat with sampleRate := 22050 }
        else if audioDevice.supportedSampleRates.contains 44100 then
          { desiredAudioFormat with sampleRate := 44100 }
        else
          desiredAudioFormat
      if adjusted ≠ desiredAudioFormat then
        (true, audioDevice.nearestFormat adjusted)
      else
        (false, desiredAudioFormat)

/-- Little-endian byte encoding of one `int16_t` sample, as written into
the device's byte buffer. -/
def int16ToBytes (s : ℤ) : List ℕ :=
  let u := (s % 65536).toNat
  [u % 256, u / 256]

/-- Byte image of a sample sequence copied out by
`AudioRingBuffer::ConstIterator::readSamples` into the `char*` region. -/
def encodeSamples : List ℤ → List ℕ
  | [] => []
  | s :: rest => int16ToBytes s ++ encodeSamples rest

/-- Result of one `AudioOutputIODevice::readData` call: the bytes placed
in the caller's region, the returned byte count, and the updated
`_unfulfilledReads` counter. -/
structure ReadDataResult where
  data : List ℕ
  bytesWritten : ℕ
  unfulfilledReads : ℕ
deriving DecidableEq, Repr

/-- Embedding of `AudioClient::AudioOutputIODevice::readData` (lines
1238-1258).  The external jitter buffer's
`popSamples(maxSize / 2, false)` call is abstracted by the list
`popped` of samples it returned (at most `maxSize / 2` of them, possibly
none); `bytesAudioOutputUnplayed` is the device-buffer occupancy
`bufferSize() - bytesFree()` read afterwards.  The function is a total
Lean function: it never blocks, mirroring the non-blocking pop
contract. -/
def readData (maxSize : ℕ) (popped : List ℤ) (bytesAudioOutputUnplayed : ℕ)
    (unfulfilledReads : ℕ) : ReadDataResult :=
  let out : List ℕ × ℕ :=
    if 0 < popped.length then
      (encodeSamples popped, popped.length * 2)
    else
      (List.replicate maxSize 0, maxSize)
  { data := out.1
    bytesWritten := out.2
    unfulfilledReads :=
      if bytesAudioOutputUnplayed = 0 ∧ out.2 = 0 then unfulfilledReads + 1
      else unfulfilledReads }

/-- Embedding of `AudioClient::setOutputBufferSize` (lines 1170-1183),
value part: the requested frame count is clamped to
`[MIN_AUDIO_OUTPUT_BUFFER_SIZE_FRAMES, MAX_AUDIO_OUTPUT_BUFFER_SIZE_FRAMES]`
and stored only when it differs from the current setting (the device
rebuild side effect is outside this model).  The MIN/MAX constants live
in `AudioClient.h`, which is not under `src/`, so they are passed as
parameters. -/
def setOutputBufferSize (minFrames maxFrames currentFrames numFrames : ℕ) : ℕ :=
  let clamped := min (max numFrames minFrames) maxFrames
  if clamped ≠ currentFrames then clamped else currentFrames

/-- Starvation-detection state mutated by `AudioClient::outputNotify`:
window start time, accumulated unfulfilled-read count, and the
configured output buffer size in frames. -/
structure StarveDetectionState where
  startTimeMsec : ℕ
  detectionCount : ℕ
  bufferSizeFrames : ℕ
deriving DecidableEq, Repr

/-- Embedding of `AudioClient::outputNotify` (lines 1072-1094): one
notification tick.  `recentUnfulfilled` is what
`getRecentUnfulfilledReads()` returned, `now` the current time in
milliseconds, `enabled`/`periodMsec`/`threshold` the starve-detection
settings, `minFrames`/`maxFrames` the buffer-size clamp bounds. -/
def outputNotify (minFrames maxFrames : ℕ) (enabled : Bool) (periodMsec threshold : ℕ)
    (st : StarveDetectionState) (now recentUnfulfilled : ℕ) : StarveDetectionState :=
  if 0 < recentUnfulfilled then
    if enabled then
      let dt := now - st.startTimeMsec
      if periodMsec < dt then
        { st with startTimeMsec := now, detectionCount := 0 }
      else
        let c := st.detectionCount + recentUnfulfilled
        if threshold < c then
          { startTimeMsec := now
            detectionCount := 0
            bufferSizeFrames :=
              setOutputBufferSize minFrames maxFrames st.bufferSizeFrames
                (st.bufferSizeFrames + 1) }
        else
          { st with detectionCount := c }
    else st
  else st

/-- State touched by one iteration of the `handleAudioInput` while-loop
(lines 738-864): the outgoing 16-bit avatar-audio sequence number
(kept in `[0, 65536)`), the clip timer (`_timeSinceLastClip`, a C
`float` idealised as `ℚ`, `-1` being the "never clipped" sentinel),
the last input loudness, and the number of samples available in the
input ring buffer. -/
structure AudioInputState where
  outgoingAvatarAudioSequenceNumber : ℕ
  timeSinceLastClip : ℚ
  lastInputLoudness : ℚ
  ringSamplesAvailable : ℕ
deriving DecidableEq, Repr

/-- Embedding of one iteration of the `handleAudioInput` processing loop
(lines 738-864), which consumes exactly one network-frame quantum
(`inputSamplesRequired` input-domain samples) from the ring buffer.

Abstracted external inputs: `frameSeconds` is
`numNetworkSamples / AudioConstants::SAMPLE_RATE` (the frame duration
added to a running clip timer); `clipDetected` is whether the noise
gate (`_inputGate.clippedInLastFrame()`) or the fallback per-sample
scan flagged a clipped sample in this frame's resampled audio;
`frameLoudness` is the loudness those same paths computed;
`mixerActive` is `audioMixer && audioMixer->getActiveSocket()`; and
`sendSucceeds` is the outcome of `nodeList->writeDatagram`, whose
return value the code discards. -/
def handleAudioInputIteration (st : AudioInputState) (muted : Bool)
    (inputSamplesRequired : ℕ) (frameSeconds : ℚ) (clipDetected : Bool)
    (frameLoudness : ℚ) (mixerActive : Bool) (sendSucceeds : Bool) : AudioInputState :=
  let st1 :=
    if muted = false then
      -- lines 747-790: increment the clip timer if it has started, read and
      -- resample the quantum, then run the gate / loudness scan which may
      -- reset the clip timer to zero
      let t0 := if 0 ≤ st.timeSinceLastClip then st.timeSinceLastClip + frameSeconds
                else st.timeSinceLastClip
      let t1 := if clipDetected then 0 else t0
      { st with
        timeSinceLastClip := t1
        lastInputLoudness := frameLoudness
        ringSamplesAvailable := st.ringSamplesAvailable - inputSamplesRequired }
    else
      -- lines 795-801: muted, loudness forced to zero, clip timer forced to
      -- zero, read pointer advanced without emitting samples
      { st with
        lastInputLoudness := 0
        timeSinceLastClip := 0
        ringSamplesAvailable := st.ringSamplesAvailable - inputSamplesRequired }
  -- lines 803-863: packet built and sent only when an audio-mixer node with
  -- an active socket is known; the sequence number is incremented there,
  -- after writeDatagram, whatever writeDatagram returned
  if mixerActive then
    { st1 with outgoingAvatarAudioSequenceNumber :=
        (st1.outgoingAvatarAudioSequenceNumber + 1) % 65536 }
  else
    let _ := sendSucceeds
    st1

/-- Initial value of `_timeSinceLastClip` from the `AudioClient`
constructor (line 99): the negative "never clipped" sentinel. -/
def initialTimeSinceLastClip : ℚ := -1

/-- Iterate `handleAudioInputIteration` over `n` consecutive unmuted,
non-clipping frames with fixed frame duration and loudness. -/
def runCleanFrames (st : AudioInputState) (inputSamplesRequired : ℕ) (frameSeconds : ℚ)
    (frameLoudness : ℚ) (mixerActive : Bool) : ℕ → AudioInputState
  | 0 => st
  | n + 1 =>
      runCleanFrames
        (handleAudioInputIteration st false inputSamplesRequired frameSeconds false
          frameLoudness mixerActive true)
        inputSamplesRequired frameSeconds frameLoudness mixerActive n

/-- Resampler-lifecycle state of the client: the negotiated device
formats, the fixed desired (network) formats, and whether each of the
three soxr contexts currently exists. -/
structure ResamplerState where
  desiredInputFormat : QAudioFormat
  desiredOutputFormat : QAudioFormat
  inputFormat : QAudioFormat
  outputFormat : QAudioFormat
  inputToNetworkResampler : Bool
  networkToOutputResampler : Bool
  loopbackResampler : Bool
deriving DecidableEq, Repr

/-- Embedding of the resampler-relevant effects of
`AudioClient::switchInputToAudioDevice` (lines 1002-1070) for a
non-null device whose format negotiation succeeded with
`negotiatedFormat` and whose device start succeeds.  The existing
input-to-network resampler is always deleted first (lines 1020-1024);
a new one is created only when the negotiated format differs from the
desired network format in sample rate; `soxrOk` abstracts whether
`soxr_create` succeeds (on failure the switch returns `false`, line
1041).  The loopback and network-to-output resamplers are not touched
by this function. -/
def switchInputToAudioDevice (st : ResamplerState) (negotiatedFormat : QAudioFormat)
    (soxrOk : Bool) : ResamplerState × Bool :=
  let st1 := { st with inputToNetworkResampler := false, inputFormat := negotiatedFormat }
  if negotiatedFormat ≠ st.desiredInputFormat ∧
      negotiatedFormat.sampleRate ≠ st.desiredInputFormat.sampleRate then
    if soxrOk then ({ st1 with inputToNetworkResampler := true }, true)
    else (st1, false)
  else (st1, true)

/-- Embedding of the resampler-relevant effects of
`AudioClient::switchOutputToAudioDevice` (lines 1096-1168) for a
non-null device whose negotiation succeeded with `negotiatedFormat`.
Both the network-to-output and the loopback resamplers are deleted
first (lines 1111-1121); a network-to-output resampler is recreated
only when the negotiated format differs from the desired output format
in sample rate, and `soxr_create` failure makes the switch return
`false` (line 1138). -/
def switchOutputToAudioDevice (st : ResamplerState) (negotiatedFormat : QAudioFormat)
    (soxrOk : Bool) : ResamplerState × Bool :=
  let st1 := { st with
    networkToOutputResampler := false
    loopbackResampler := false
    outputFormat := negotiatedFormat }
  if st.desiredOutputFormat ≠ negotiatedFormat ∧
      st.desiredOutputFormat.sampleRate ≠ negotiatedFormat.sampleRate then
    if soxrOk then ({ st1 with networkToOutputResampler := true }, true)
    else (st1, false)
  else (st1, true)

/-- Embedding of the loopback-resampler setup inside
`AudioClient::handleLocalEchoAndReverb` (lines 658-666), reached when
the echo/reverb guards admit the call (not muted, output device
present, echo or reverb requested; those guards do not touch the
resampler state).  A loopback resampler is created only when the input
and output sample rates differ and none exists yet; `soxr_create`
failure aborts the call (returns `false`). -/
def handleLocalEchoAndReverb (st : ResamplerState) (soxrOk : Bool) : ResamplerState × Bool :=
  if st.inputFormat.sampleRate ≠ st.outputFormat.sampleRate ∧ st.loopbackResampler = false then
    if soxrOk then ({ st with loopbackResampler := true }, true)
    else (st, false)
  else (st, true)

/-- Synthetic-source selection flags of `AudioClient`. -/
structure SourceFlags where
  toneSourceEnabled : Bool
  noiseSourceEnabled : Bool
deriving DecidableEq, Repr

/-- Constructor state (lines 112-113): `_noiseSourceEnabled(false)`,
`_toneSourceEnabled(true)`. -/
def initialSourceFlags : SourceFlags :=
  { toneSourceEnabled := true, noiseSourceEnabled := false }

/-- Embedding of `AudioClient::selectAudioSourcePinkNoise` (lines
960-963). -/
def selectAudioSourcePinkNoise (s : SourceFlags) : SourceFlags :=
  { s with noiseSourceEnabled := true, toneSourceEnabled := false }

/-- Embedding of `AudioClient::selectAudioSourceSine440` (lines
965-968). -/
def selectAudioSourceSine440 (s : SourceFlags) : SourceFlags :=
  { s with toneSourceEnabled := true, noiseSourceEnabled := false }

/-- States of the tone/noise flags reachable from the constructor state
through the two source-selection operations (the only code that writes
either flag). -/
inductive ReachableSourceFlags : SourceFlags → Prop
  | init : ReachableSourceFlags initialSourceFlags
  | pink {s : SourceFlags} (h : ReachableSourceFlags s) :
      ReachableSourceFlags (selectAudioSourcePinkNoise s)
  | sine {s : SourceFlags} (h : ReachableSourceFlags s) :
      ReachableSourceFlags (selectAudioSourceSine440 s)

/-- An in-range 16-bit value is unchanged by the `int16_t` store. -/
lemma toInt16_eq_self {x : ℤ} (h1 : -32768 ≤ x) (h2 : x ≤ 32767) : toInt16 x = x := by
  unfold toInt16
  omega

/-- Bounds of C truncating division by two on an `int16_t` input. -/
lemma tdiv_two_bounds {a : ℤ} (h1 : -32768 ≤ a) (h2 : a ≤ 32767) :
    -16384 ≤ a.tdiv 2 ∧ a.tdiv 2 ≤ 16383 := by
  rcases le_or_lt 0 a with h | h
  · rw [Int.tdiv_eq_ediv h (by norm_num)]
    omega
  · have h3 : a.tdiv 2 = -((-a).tdiv 2) := by
      simp [Int.neg_tdiv]
    rw [h3, Int.tdiv_eq_ediv (by omega) (by norm_num)]
    omega

/-- C2: for every pair of in-range 16-bit samples (a, b) forming one
stereo frame anywhere in the buffer, stereo-to-mono conversion produces
exactly `(a / 2) + (b / 2)` with each operand integer-divided by two
truncating toward zero; and this differs from `(a + b) / 2` (witnessed
at a = b = 1). -/
theorem c2_stereo_to_mono_exact :
    (∀ (r₁ r₂ : ℕ) (a b : ℤ) (rest : List ℤ),
      -32768 ≤ a → a ≤ 32767 → -32768 ≤ b → b ≤ 32767 →
      sampleChannelConversion ⟨r₁, 2⟩ ⟨r₂, 1⟩ (a :: b :: rest) =
        some ((a.tdiv 2 + b.tdiv 2) :: stereoToMonoSamples rest)) ∧
    (∃ a b : ℤ, -32768 ≤ a ∧ a ≤ 32767 ∧ -32768 ≤ b ∧ b ≤ 32767 ∧
      sampleChannelConversion ⟨44100, 2⟩ ⟨44100, 1⟩ [a, b] ≠ some [(a + b).tdiv 2]) := by
  constructor
  · intro r₁ r₂ a b rest ha1 ha2 hb1 hb2
    have hda := tdiv_two_bounds ha1 ha2
    have hdb := tdiv_two_bounds hb1 hb2
    simp only [sampleChannelConversion, stereoToMonoSamples, and_self, if_pos]
    rw [toInt16_eq_self (by omega) (by omega)]
  · exact ⟨1, 1, by decide, by decide, by decide, by decide, by decide⟩

/-- Witness for `c2_stereo_to_mono_exact` at a = -7, b = 9 in a
48 kHz stereo-to-mono conversion. -/
theorem c2_stereo_to_mono_exact_witness :
    sampleChannelConversion ⟨48000, 2⟩ ⟨48000, 1⟩ [(-7 : ℤ), 9] =
      some (((-7 : ℤ).tdiv 2 + (9 : ℤ).tdiv 2) :: stereoToMonoSamples []) :=
  c2_stereo_to_mono_exact.1 48000 48000 (-7) 9 [] (by decide) (by decide) (by decide)
    (by decide)

/-- C4: format negotiation reports failure only when no adjustment to
the desired format occurred — the out-parameter then still equals the
desired format and the device did not support the desired format.  In
every other case it returns ok = true.  It is a total function, so
failure is never signalled by an exception. -/
theorem c4_negotiation_fails_only_without_adjustment :
    ∀ (audioDevice : AudioDeviceInfo) (desiredAudioFormat : QAudioFormat),
      (adjustedFormatForAudioDevice audioDevice desiredAudioFormat).1 = false →
      (adjustedFormatForAudioDevice audioDevice desiredAudioFormat).2 = desiredAudioFormat ∧
      audioDevice.isFormatSupported desiredAudioFormat = false := by
  intro dev f h
  unfold adjustedFormatForAudioDevice at h ⊢
  split_ifs at h ⊢ <;> try simp_all
  all_goals (split_ifs at h ⊢ ; simp_all)

/-- A device supporting nothing, for the negotiation-failure witness. -/
def rejectingDevice : AudioDeviceInfo :=
  { isFormatSupported := fun _ => false
    supportedSampleRates := []
    nearestFormat := fun f => f }

/-- Witness for `c4_negotiation_fails_only_without_adjustment` on a
device that supports no format and lists no sample rates. -/
theorem c4_negotiation_fails_only_without_adjustment_witness :
    (adjustedFormatForAudioDevice rejectingDevice ⟨48000, 1⟩).2 = ⟨48000, 1⟩ ∧
    rejectingDevice.isFormatSupported ⟨48000, 1⟩ = false :=
  c4_negotiation_fails_only_without_adjustment rejectingDevice ⟨48000, 1⟩ rfl

/-- C7: the output device read never blocks (it is a total function of
the popped samples): when at least one sample was popped, exactly the
popped samples are copied out and their byte count — at most the
requested `maxSize` — is returned; when none could be popped, the whole
`maxSize` region is zero-filled and the full `maxSize` is reported as
written. -/
theorem c7_output_read_never_starved :
    ∀ (maxSize : ℕ) (popped : List ℤ) (bytesAudioOutputUnplayed unfulfilledReads : ℕ),
      popped.length ≤ maxSize / 2 →
      (popped ≠ [] →
        (readData maxSize popped bytesAudioOutputUnplayed unfulfilledReads).data =
          encodeSamples popped ∧
        (readData maxSize popped bytesAudioOutputUnplayed unfulfilledReads).bytesWritten =
          popped.length * 2 ∧
        (readData maxSize popped bytesAudioOutputUnplayed unfulfilledReads).bytesWritten ≤
          maxSize) ∧
      (popped = [] →
        (readData maxSize popped bytesAudioOutputUnplayed unfulfilledReads).data =
          List.replicate maxSize 0 ∧
        (readData maxSize popped bytesAudioOutputUnplayed unfulfilledReads).bytesWritten =
          maxSize) := by
  intro maxSize popped unplayed u hlen
  constructor
  · intro hne
    have hpos : 0 < popped.length := List.length_pos.mpr hne
    refine ⟨?_, ?_, ?_⟩ <;> simp only [readData, if_pos hpos]
    omega
  · intro he
    subst he
    simp [readData]

/-- Witness for `c7_output_read_never_starved` with one popped sample
against a 4-byte request. -/
theorem c7_output_read_never_starved_witness :
    (([(5 : ℤ)] ≠ ([] : List ℤ)) →
      (readData 4 [(5 : ℤ)] 0 0).data = encodeSamples [(5 : ℤ)] ∧
      (readData 4 [(5 : ℤ)] 0 0).bytesWritten = [(5 : ℤ)].length * 2 ∧
      (readData 4 [(5 : ℤ)] 0 0).bytesWritten ≤ 4) ∧
    (([(5 : ℤ)] = ([] : List ℤ)) →
      (readData 4 [(5 : ℤ)] 0 0).data = List.replicate 4 0 ∧
      (readData 4 [(5 : ℤ)] 0 0).bytesWritten = 4) :=
  c7_output_read_never_starved 4 [(5 : ℤ)] 0 0 (by decide)

/-- C8: evaluation of `readData` at a concrete underrun.  A 512-byte
read with nothing poppable from the jitter buffer substitutes 512 bytes
of silence, yet `_unfulfilledReads` stays 0, because the increment is
guarded by `bytesWritten == 0` and the silence branch sets
`bytesWritten = maxSize`; so the unfulfilled-read counter is NOT
incremented on this underrun, contradicting the starvation-detection
design that this counter is supposed to drive. -/
theorem c8_underrun_not_counted :
    (readData 512 [] 0 0).bytesWritten = 512 ∧
    (readData 512 [] 0 0).data = List.replicate 512 0 ∧
    (readData 512 [] 0 0).unfulfilledReads = 0 :=
  ⟨rfl, rfl, rfl⟩

/-- C10: in every state reachable from the constructor state through the
two source-selection operations, the tone-source and noise-source flags
are never both set; the initial state enables only the tone source, and
each selection operation enables its own flag while disabling the
other. -/
theorem c10_source_flags_mutually_exclusive :
    (∀ s : SourceFlags, ReachableSourceFlags s →
      ¬(s.toneSourceEnabled = true ∧ s.noiseSourceEnabled = true)) ∧
    initialSourceFlags.toneSourceEnabled = true ∧
    initialSourceFlags.noiseSourceEnabled = false ∧
    (∀ s : SourceFlags, (selectAudioSourcePinkNoise s).noiseSourceEnabled = true ∧
      (selectAudioSourcePinkNoise s).toneSourceEnabled = false) ∧
    (∀ s : SourceFlags, (selectAudioSourceSine440 s).toneSourceEnabled = true ∧
      (selectAudioSourceSine440 s).noiseSourceEnabled = false) := by
  refine ⟨?_, rfl, rfl, fun s => ⟨rfl, rfl⟩, fun s => ⟨rfl, rfl⟩⟩
  intro s h
  induction h with
  | init => simp [initialSourceFlags]
  | pink h ih => simp [selectAudioSourcePinkNoise]
  | sine h ih => simp [selectAudioSourceSine440]

/-- Witness for `c10_source_flags_mutually_exclusive` at the state
reached by selecting pink noise from the initial state. -/
theorem c10_source_flags_mutually_exclusive_witness :
    ¬((selectAudioSourcePinkNoise initialSourceFlags).toneSourceEnabled = true ∧
      (selectAudioSourcePinkNoise initialSourceFlags).noiseSourceEnabled = true) :=
  c10_source_flags_mutually_exclusive.1 (selectAudioSourcePinkNoise initialSourceFlags)
    (ReachableSourceFlags.pink ReachableSourceFlags.init)

/-- C1 counterexample: on an iteration that consumes a full quantum
while no audio-mixer connection is known, the sequence number is NOT
incremented: from 5 it stays 5 instead of becoming (5 + 1) mod 2^16,
so the claim "incremented exactly once on every iteration" fails at
this concrete input. -/
theorem c1_no_mixer_no_increment :
    (handleAudioInputIteration ⟨5, -1, 0, 100⟩ false 10 1 false 0
        false true).outgoingAvatarAudioSequenceNumber = 5 ∧
    (5 : ℕ) ≠ (5 + 1) % 65536 := by
  refine ⟨?_, by decide⟩
  simp [handleAudioInputIteration]

/-- C1 amended: on every iteration of the input-processing loop in which
an audio-mixer with an active socket is known, the outgoing sequence
number is incremented exactly once, whether muted or not and whatever
`writeDatagram` returned, wrapping modulo 2^16; on an iteration without
a known mixer connection it is unchanged. -/
theorem c1_sequence_number_increment :
    ∀ (st : AudioInputState) (muted : Bool) (inputSamplesRequired : ℕ)
      (frameSeconds frameLoudness : ℚ) (clipDetected sendSucceeds : Bool),
      (handleAudioInputIteration st muted inputSamplesRequired frameSeconds clipDetected
          frameLoudness true sendSucceeds).outgoingAvatarAudioSequenceNumber =
        (st.outgoingAvatarAudioSequenceNumber + 1) % 65536 ∧
      (handleAudioInputIteration st muted inputSamplesRequired frameSeconds clipDetected
          frameLoudness false sendSucceeds).outgoingAvatarAudioSequenceNumber =
        st.outgoingAvatarAudioSequenceNumber := by
  intro st muted isr fs loud clip send
  cases muted <;> simp [handleAudioInputIteration]

/-- One unmuted, non-clipping frame advances a started clip timer by
exactly the frame duration. -/
lemma clean_frame_time_step (st : AudioInputState) (isr : ℕ) (fs loud : ℚ)
    (mixer send : Bool) (h : 0 ≤ st.timeSinceLastClip) :
    (handleAudioInputIteration st false isr fs false loud mixer send).timeSinceLastClip =
      st.timeSinceLastClip + fs := by
  cases mixer <;> simp [handleAudioInputIteration, h]

/-- Accumulation of the clip timer over n unmuted, non-clipping frames. -/
lemma runCleanFrames_time (isr : ℕ) (fs loud : ℚ) (mixer : Bool) (hfs : 0 ≤ fs) :
    ∀ (n : ℕ) (st : AudioInputState), 0 ≤ st.timeSinceLastClip →
      (runCleanFrames st isr fs loud mixer n).timeSinceLastClip =
        st.timeSinceLastClip + n * fs := by
  intro n
  induction n with
  | zero => intro st h; simp [runCleanFrames]
  | succ k ih =>
      intro st h
      rw [runCleanFrames, ih _ (by rw [clean_frame_time_step st isr fs loud mixer true h]; positivity),
        clean_frame_time_step st isr fs loud mixer true h]
      push_cast
      ring

/-- C6 counterexample: with the clip timer at 0 (a clip just happened),
one muted processed frame of duration 1 leaves the timer at 0 instead
of incrementing it to 1 x 1, so "increments by the frame duration on
each processed frame" fails at this concrete input. -/
theorem c6_muted_frame_holds_timer :
    (handleAudioInputIteration ⟨0, 0, 0, 100⟩ true 10 1 false 0
        false true).timeSinceLastClip = 0 ∧
    (0 : ℚ) ≠ 1 * 1 := by
  refine ⟨?_, by norm_num⟩
  simp [handleAudioInputIteration]

/-- C6 amended: the clip timer starts at the negative "never clipped"
sentinel; an unmuted frame in which a clipped sample is detected resets
it to 0; starting from 0, N unmuted non-clipping frames of duration d
each bring it to N x d; and a muted processed frame forces it to 0
(rather than incrementing it). -/
theorem c6_clip_timer :
    initialTimeSinceLastClip < 0 ∧
    (∀ (st : AudioInputState) (isr : ℕ) (fs loud : ℚ) (mixer send : Bool),
      (handleAudioInputIteration st false isr fs true loud mixer send).timeSinceLastClip = 0) ∧
    (∀ (st : AudioInputState) (isr : ℕ) (fs loud : ℚ) (mixer : Bool),
      st.timeSinceLastClip = 0 → 0 ≤ fs →
      ∀ n : ℕ, (runCleanFrames st isr fs loud mixer n).timeSinceLastClip = n * fs) ∧
    (∀ (st : AudioInputState) (isr : ℕ) (fs loud : ℚ) (mixer send : Bool),
      (handleAudioInputIteration st true isr fs false loud mixer send).timeSinceLastClip = 0) := by
  refine ⟨by norm_num [initialTimeSinceLastClip], ?_, ?_, ?_⟩
  · intro st isr fs loud mixer send
    cases mixer <;> simp [handleAudioInputIteration]
  · intro st isr fs loud mixer h0 hfs n
    rw [runCleanFrames_time isr fs loud mixer hfs n st (by rw [h0]), h0, zero_add]
  · intro st isr fs loud mixer send
    cases mixer <;> simp [handleAudioInputIteration]

/-- Witness for `c6_clip_timer`: two clean frames of duration 1 after a
clip bring the timer to 2. -/
theorem c6_clip_timer_witness :
    (runCleanFrames ⟨0, 0, 0, 100⟩ 10 1 0 true 2).timeSinceLastClip = (2 : ℕ) * 1 :=
  c6_clip_timer.2.2.1 ⟨0, 0, 0, 100⟩ 10 1 0 true rfl (by norm_num) 2

/-- C5 counterexample: when the detection window has expired
(dt > period), the code restarts the window with the counter reset to
0, discarding the current `recentUnfulfilled` reading (3 here), not
resetting it to the recentUnfulfilled-equivalent as claimed. -/
theorem c5_window_restart_discards_reading :
    (outputNotify 3 20 true 1000 5 ⟨0, 5, 10⟩ 1001 3).detectionCount = 0 ∧
    (0 : ℕ) ≠ 3 :=
  ⟨rfl, by decide⟩

/-- Equation: a tick with no unfulfilled reads leaves the state alone. -/
lemma outputNotify_no_reads (minF maxF : ℕ) (enabled : Bool) (period thr : ℕ)
    (st : StarveDetectionState) (now recent : ℕ) (h : ¬0 < recent) :
    outputNotify minF maxF enabled period thr st now recent = st := by
  simp [outputNotify, h]

/-- Equation: a tick with detection disabled leaves the state alone. -/
lemma outputNotify_disabled (minF maxF : ℕ) (period thr : ℕ)
    (st : StarveDetectionState) (now recent : ℕ) :
    outputNotify minF maxF false period thr st now recent = st := by
  simp [outputNotify]

/-- Equation: an expired window restarts with counter zero. -/
lemma outputNotify_window_expired (minF maxF : ℕ) (period thr : ℕ)
    (st : StarveDetectionState) (now recent : ℕ) (h1 : 0 < recent)
    (h3 : period < now - st.startTimeMsec) :
    outputNotify minF maxF true period thr st now recent =
      { st with startTimeMsec := now, detectionCount := 0 } := by
  simp [outputNotify, h1, h3]

/-- Equation: a threshold crossing inside the window grows the buffer
and restarts the window. -/
lemma outputNotify_crossing (minF maxF : ℕ) (period thr : ℕ)
    (st : StarveDetectionState) (now recent : ℕ) (h1 : 0 < recent)
    (h3 : ¬period < now - st.startTimeMsec) (h4 : thr < st.detectionCount + recent) :
    outputNotify minF maxF true period thr st now recent =
      { startTimeMsec := now
        detectionCount := 0
        bufferSizeFrames :=
          setOutputBufferSize minF maxF st.bufferSizeFrames (st.bufferSizeFrames + 1) } := by
  simp [outputNotify, h1, h3, h4]

/-- Equation: inside the window, below threshold, only the counter
accumulates. -/
lemma outputNotify_accumulate (minF maxF : ℕ) (period thr : ℕ)
    (st : StarveDetectionState) (now recent : ℕ) (h1 : 0 < recent)
    (h3 : ¬period < now - st.startTimeMsec) (h4 : ¬thr < st.detectionCount + recent) :
    outputNotify minF maxF true period thr st now recent =
      { st with detectionCount := st.detectionCount + recent } := by
  simp [outputNotify, h1, h3, h4]

/-- Value of the clamped grow-by-one store when the current size is
already at least the minimum. -/
lemma setOutputBufferSize_grow (minF maxF buf : ℕ) (hlo : minF ≤ buf) :
    setOutputBufferSize minF maxF buf (buf + 1) = min (buf + 1) maxF := by
  unfold setOutputBufferSize
  simp only [max_eq_left (show minF ≤ buf + 1 by omega)]
  split_ifs with h
  · rfl
  · exact (Decidable.not_not.mp h).symm

/-- C5 amended: starting from a configured buffer size within
[minFrames, maxFrames], each `outputNotify` tick keeps it within those
bounds; a threshold crossing inside the window grows the buffer by
exactly one frame, clamped at maxFrames, and restarts the window with
the counter at zero; an expired window restarts with the counter reset
to zero (the current reading discarded) and the buffer unchanged; and
the buffer size changes only on a threshold crossing. -/
theorem c5_starve_detection :
    ∀ (minFrames maxFrames periodMsec threshold : ℕ) (enabled : Bool)
      (st : StarveDetectionState) (now recentUnfulfilled : ℕ),
      minFrames ≤ maxFrames →
      minFrames ≤ st.bufferSizeFrames → st.bufferSizeFrames ≤ maxFrames →
      (minFrames ≤ (outputNotify minFrames maxFrames enabled periodMsec threshold st now
          recentUnfulfilled).bufferSizeFrames ∧
        (outputNotify minFrames maxFrames enabled periodMsec threshold st now
          recentUnfulfilled).bufferSizeFrames ≤ maxFrames) ∧
      (0 < recentUnfulfilled → enabled = true → now - st.startTimeMsec ≤ periodMsec →
        threshold < st.detectionCount + recentUnfulfilled →
        (outputNotify minFrames maxFrames enabled periodMsec threshold st now
            recentUnfulfilled).bufferSizeFrames = min (st.bufferSizeFrames + 1) maxFrames ∧
        (outputNotify minFrames maxFrames enabled periodMsec threshold st now
            recentUnfulfilled).detectionCount = 0 ∧
        (outputNotify minFrames maxFrames enabled periodMsec threshold st now
            recentUnfulfilled).startTimeMsec = now) ∧
      (0 < recentUnfulfilled → enabled = true → periodMsec < now - st.startTimeMsec →
        (outputNotify minFrames maxFrames enabled periodMsec threshold st now
            recentUnfulfilled).detectionCount = 0 ∧
        (outputNotify minFrames maxFrames enabled periodMsec threshold st now
            recentUnfulfilled).startTimeMsec = now ∧
        (outputNotify minFrames maxFrames enabled periodMsec threshold st now
            recentUnfulfilled).bufferSizeFrames = st.bufferSizeFrames) ∧
      (¬(0 < recentUnfulfilled ∧ enabled = true ∧ now - st.startTimeMsec ≤ periodMsec ∧
          threshold < st.detectionCount + recentUnfulfilled) →
        (outputNotify minFrames maxFrames enabled periodMsec threshold st now
            recentUnfulfilled).bufferSizeFrames = st.bufferSizeFrames) := by
  intro minF maxF period thr enabled st now recent hmm hlo hhi
  by_cases h1 : 0 < recent
  · cases enabled with
    | false =>
        rw [outputNotify_disabled]
        exact ⟨⟨hlo, hhi⟩, fun _ h => by simp at h, fun _ h => by simp at h, fun _ => rfl⟩
    | true =>
        by_cases h3 : period < now - st.startTimeMsec
        · rw [outputNotify_window_expired minF maxF period thr st now recent h1 h3]
          exact ⟨⟨hlo, hhi⟩, fun _ _ hle _ => absurd h3 (by omega),
            fun _ _ _ => ⟨rfl, rfl, rfl⟩, fun _ => rfl⟩
        · by_cases h4 : thr < st.detectionCount + recent
          · rw [outputNotify_crossing minF maxF period thr st now recent h1 h3 h4,
              setOutputBufferSize_grow minF maxF st.bufferSizeFrames hlo]
            exact ⟨⟨le_min (by omega) hmm, min_le_right _ _⟩, fun _ _ _ _ => ⟨rfl, rfl, rfl⟩,
              fun _ _ hgt => absurd hgt h3, fun hno => absurd ⟨h1, rfl, by omega, h4⟩ hno⟩
          · rw [outputNotify_accumulate minF maxF period thr st now recent h1 h3 h4]
            exact ⟨⟨hlo, hhi⟩, fun _ _ _ hgt => absurd hgt h4,
              fun _ _ hgt => absurd hgt h3, fun _ => rfl⟩
  · rw [outputNotify_no_reads minF maxF enabled period thr st now recent h1]
    exact ⟨⟨hlo, hhi⟩, fun hpos => absurd hpos h1, fun hpos => absurd hpos h1, fun _ => rfl⟩

/-- Witness for `c5_starve_detection`: a threshold crossing at buffer
size 10 within [3, 20] grows the buffer to exactly 11 and restarts the
window. -/
theorem c5_starve_detection_witness :
    ((3 : ℕ) ≤ (outputNotify 3 20 true 1000 5 ⟨0, 4, 10⟩ 500 2).bufferSizeFrames ∧
      (outputNotify 3 20 true 1000 5 ⟨0, 4, 10⟩ 500 2).bufferSizeFrames ≤ 20) ∧
    ((0 : ℕ) < 2 → true = true → 500 - (0 : ℕ) ≤ 1000 → (5 : ℕ) < 4 + 2 →
      (outputNotify 3 20 true 1000 5 ⟨0, 4, 10⟩ 500 2).bufferSizeFrames = min (10 + 1) 20 ∧
      (outputNotify 3 20 true 1000 5 ⟨0, 4, 10⟩ 500 2).detectionCount = 0 ∧
      (outputNotify 3 20 true 1000 5 ⟨0, 4, 10⟩ 500 2).startTimeMsec = 500) ∧
    ((0 : ℕ) < 2 → true = true → 1000 < 500 - (0 : ℕ) →
      (outputNotify 3 20 true 1000 5 ⟨0, 4, 10⟩ 500 2).detectionCount = 0 ∧
      (outputNotify 3 20 true 1000 5 ⟨0, 4, 10⟩ 500 2).startTimeMsec = 500 ∧
      (outputNotify 3 20 true 1000 5 ⟨0, 4, 10⟩ 500 2).bufferSizeFrames = 10) ∧
    (¬((0 : ℕ) < 2 ∧ true = true ∧ 500 - (0 : ℕ) ≤ 1000 ∧ (5 : ℕ) < 4 + 2) →
      (outputNotify 3 20 true 1000 5 ⟨0, 4, 10⟩ 500 2).bufferSizeFrames = 10) :=
  c5_starve_detection 3 20 1000 5 true ⟨0, 4, 10⟩ 500 2 (by decide) (by decide) (by decide)

/-- Truncation toward zero agrees with the floor on nonnegative
rationals. -/
lemma ratTruncToInt_eq_floor {q : ℚ} (h : 0 ≤ q) : ratTruncToInt q = ⌊q⌋ := by
  unfold ratTruncToInt
  rw [Int.tdiv_eq_ediv (Rat.num_nonneg.mpr h) (Int.natCast_nonneg q.den)]
  exact Rat.floor_def.symm

/-- C3 counterexample: on the network-to-output render path, with the
desired (network) output format at 24000 Hz stereo and a 44100 Hz
stereo device, one network sample yields a requested destination count
of 1 * 88200 / 48000 = 1, while the claimed formula
round(1 x 44100/24000 x 2/2) gives 2, so the render path does not
request the rounded count. -/
theorem c3_render_path_truncates :
    processReceivedSamplesCount ⟨24000, 2⟩ ⟨44100, 2⟩ 1 = 1 ∧
    specRoundedDestinationCount ⟨24000, 2⟩ ⟨44100, 2⟩ 1 = 2 := by
  refine ⟨rfl, ?_⟩
  unfold specRoundedDestinationCount
  rw [round_eq]
  norm_num

/-- C3 amended: the loopback path's `numDestinationSamplesRequired`
equals the spec's rounded formula for every format pair and source
count (under the rational idealisation of its `float` arithmetic),
while the network-to-output render path requests the truncated count
⌊srcSamples x (dstRate x dstChannels) / (srcRate x srcChannels)⌋,
not the rounded one. -/
theorem c3_destination_sample_counts :
    (∀ (sourceFormat destinationFormat : QAudioFormat) (numSourceSamples : ℕ),
      numDestinationSamplesRequired sourceFormat destinationFormat numSourceSamples =
        specRoundedDestinationCount sourceFormat destinationFormat numSourceSamples) ∧
    (∀ (desiredOutputFormat outputFormat : QAudioFormat) (numNetworkOutputSamples : ℕ),
      (processReceivedSamplesCount desiredOutputFormat outputFormat
          numNetworkOutputSamples : ℤ) =
        ⌊((numNetworkOutputSamples *
            (outputFormat.sampleRate * outputFormat.channelCount) : ℕ) : ℚ) /
          ((desiredOutputFormat.sampleRate * desiredOutputFormat.channelCount : ℕ) : ℚ)⌋) := by
  constructor
  · intro src dst n
    unfold numDestinationSamplesRequired specRoundedDestinationCount
    rw [round_eq, ratTruncToInt_eq_floor (by positivity)]
    congr 1
    ring
  · intro dOut out n
    rw [Rat.floor_natCast_div_natCast, ← Int.ofNat_ediv]
    rfl

/-- C9 amended: after every completed input-device switch the
input-to-network resampler exists iff the negotiated input format and
the desired network format differ in sample rate; symmetrically for the
output-device switch and the network-to-output resampler (so
channel-only differences create no resampler and use direct up/down-mix
in `possibleResampling`); and a completed local-loopback setup has a
loopback resampler whenever input and output sample rates differ.  (A
stale loopback resampler may additionally persist when the rates are
equal, because input-device switches do not clear it — see the
counterexample.) -/
theorem c9_resampler_lifecycle :
    (∀ (st : ResamplerState) (negotiatedFormat : QAudioFormat) (soxrOk : Bool),
      (switchInputToAudioDevice st negotiatedFormat soxrOk).2 = true →
      ((switchInputToAudioDevice st negotiatedFormat soxrOk).1.inputToNetworkResampler = true ↔
        negotiatedFormat.sampleRate ≠ st.desiredInputFormat.sampleRate)) ∧
    (∀ (st : ResamplerState) (negotiatedFormat : QAudioFormat) (soxrOk : Bool),
      (switchOutputToAudioDevice st negotiatedFormat soxrOk).2 = true →
      ((switchOutputToAudioDevice st negotiatedFormat soxrOk).1.networkToOutputResampler = true ↔
        st.desiredOutputFormat.sampleRate ≠ negotiatedFormat.sampleRate)) ∧
    (∀ (st : ResamplerState) (soxrOk : Bool),
      (handleLocalEchoAndReverb st soxrOk).2 = true →
      st.inputFormat.sampleRate ≠ st.outputFormat.sampleRate →
      (handleLocalEchoAndReverb st soxrOk).1.loopbackResampler = true) := by
  refine ⟨?_, ?_, ?_⟩
  · intro st fmt ok hdone
    by_cases hrate : fmt.sampleRate = st.desiredInputFormat.sampleRate
    · have hcond : ¬(fmt ≠ st.desiredInputFormat ∧
          fmt.sampleRate ≠ st.desiredInputFormat.sampleRate) := fun h => h.2 hrate
      simp only [switchInputToAudioDevice, if_neg hcond]
      simp [hrate]
    · have hfmt : fmt ≠ st.desiredInputFormat :=
        fun heq => hrate (congrArg QAudioFormat.sampleRate heq)
      simp only [switchInputToAudioDevice, if_pos (And.intro hfmt hrate)] at hdone ⊢
      cases ok
      · simp at hdone
      · simp [hrate]
  · intro st fmt ok hdone
    by_cases hrate : st.desiredOutputFormat.sampleRate = fmt.sampleRate
    · have hcond : ¬(st.desiredOutputFormat ≠ fmt ∧
          st.desiredOutputFormat.sampleRate ≠ fmt.sampleRate) := fun h => h.2 hrate
      simp only [switchOutputToAudioDevice, if_neg hcond]
      simp [hrate]
    · have hfmt : st.desiredOutputFormat ≠ fmt :=
        fun heq => hrate (congrArg QAudioFormat.sampleRate heq)
      simp only [switchOutputToAudioDevice, if_pos (And.intro hfmt hrate)] at hdone ⊢
      cases ok
      · simp at hdone
      · simp [hrate]
  · intro st ok hdone hne
    by_cases hb : st.loopbackResampler = false
    · simp only [handleLocalEchoAndReverb, if_pos (And.intro hne hb)] at hdone ⊢
      cases ok
      · simp at hdone
      · simp
    · have hcond : ¬(st.inputFormat.sampleRate ≠ st.outputFormat.sampleRate ∧
          st.loopbackResampler = false) := fun hc => hb hc.2
      simp only [handleLocalEchoAndReverb, if_neg hcond]
      simp at hb
      exact hb

/-- Default-constructed resampler-lifecycle state: desired formats are
the network formats (24000 Hz mono in, 24000 Hz stereo out), no device
formats negotiated yet, no resampler contexts. -/
def initialResamplerState : ResamplerState :=
  { desiredInputFormat := ⟨24000, 1⟩
    desiredOutputFormat := ⟨24000, 2⟩
    inputFormat := ⟨24000, 1⟩
    outputFormat := ⟨24000, 2⟩
    inputToNetworkResampler := false
    networkToOutputResampler := false
    loopbackResampler := false }

/-- Trace reaching a stale loopback resampler: switch the output device
to 44100 Hz, the input device to 48000 Hz, set up the loopback (48000
vs 44100 creates a loopback resampler), then switch the input device to
44100 Hz — which does not clear the loopback resampler. -/
def staleLoopbackTrace : ResamplerState :=
  let s1 := (switchOutputToAudioDevice initialResamplerState ⟨44100, 2⟩ true).1
  let s2 := (switchInputToAudioDevice s1 ⟨48000, 1⟩ true).1
  let s3 := (handleLocalEchoAndReverb s2 true).1
  (switchInputToAudioDevice s3 ⟨44100, 1⟩ true).1

/-- C9 counterexample: after the trace above, a further completed
local-loopback setup leaves a loopback resampler in existence although
the input and output sample rates are equal (both 44100), refuting
"the resampler context exists iff the formats differ in sample rate"
for the loopback path. -/
theorem c9_stale_loopback_resampler :
    (handleLocalEchoAndReverb staleLoopbackTrace true).2 = true ∧
    (handleLocalEchoAndReverb staleLoopbackTrace true).1.loopbackResampler = true ∧
    (handleLocalEchoAndReverb staleLoopbackTrace
        true).1.inputFormat.sampleRate =
      (handleLocalEchoAndReverb staleLoopbackTrace true).1.outputFormat.sampleRate := by
  refine ⟨rfl, rfl, rfl⟩

/-- Witness for `c9_resampler_lifecycle`: switching the input device to
48000 Hz mono from the initial state completes and creates an
input-to-network resampler iff 48000 differs from the desired 24000. -/
theorem c9_resampler_lifecycle_witness :
    (switchInputToAudioDevice initialResamplerState ⟨48000, 1⟩
        true).1.inputToNetworkResampler = true ↔
      (⟨48000, 1⟩ : QAudioFormat).sampleRate ≠
        initialResamplerState.desiredInputFormat.sampleRate :=
  c9_resampler_lifecycle.1 initialResamplerState ⟨48000, 1⟩ true rfl

end AudioClientModel
